import Mathlib

/-!
Shallow embedding of `src/mcp-lab/templates/python/basic/server.py`.

The file defines one tool class (`SampleTool`, with templated `name` and
`description` attributes and an `execute(params)` method) and a `main`
entry point that builds an `McpServer`, registers one tool instance,
prints a startup line and calls the blocking `server.start()`.

We model Python values that can appear in the parameter mapping, Python
truthiness (used by the `or` operator in the f-string), Python `str()`
conversion (applied by the f-string), dictionaries as association lists
with first-match lookup, and `main` as a linear trace of externally
visible events.
-/

/-- A Python value as it can appear in the parameter mapping handed to
`SampleTool.execute`: strings, integers, booleans, `None` and lists. -/
inductive PyValue where
  | str (s : String)
  | int (n : Int)
  | bool (b : Bool)
  | none
  | list (xs : List PyValue)

/-- Python truthiness: `""`, `0`, `False`, `None` and `[]` are falsy,
everything else is truthy.  This is what the `or` operator in
`f"Processed: {input_text or 'No input provided'}"` tests. -/
def truthy : PyValue → Bool
  | .str s => s != ""
  | .int n => n != 0
  | .bool b => b
  | .none => false
  | .list xs => !xs.isEmpty

/-- The single-quote character, used by Python `repr` of strings. -/
def squote : Char := Char.ofNat 39

/-- The double-quote character, used by Python `repr` of strings that
contain a single quote but no double quote. -/
def dquote : Char := Char.ofNat 34

/-- Escaping of one character inside a Python string repr delimited by
`quote`: backslash, the delimiter and common control characters are
escaped, every other character is kept as is. -/
def pyEscapeChar (quote : Char) (c : Char) : String :=
  if c = '\\' then "\\\\"
  else if c = quote then "\\" ++ String.singleton quote
  else if c = '\n' then "\\n"
  else if c = '\r' then "\\r"
  else if c = '\t' then "\\t"
  else String.singleton c

/-- Python `repr` of a string: single-quoted by default; double-quoted
when the string contains a single quote but no double quote. -/
def pyReprStr (s : String) : String :=
  let q := if s.contains squote && !(s.contains dquote) then dquote else squote
  String.singleton q ++ String.join (s.toList.map (pyEscapeChar q)) ++ String.singleton q

/-- Python `repr` of a value (`repr` is what list elements are rendered
with when a list is converted by `str`). -/
def pyRepr : PyValue → String
  | .str s => pyReprStr s
  | .int n => toString n
  | .bool b => if b then "True" else "False"
  | .none => "None"
  | .list xs => "[" ++ String.intercalate ", " (pyReprList xs) ++ "]"
where
  /-- `repr` of every element of a list of values. -/
  pyReprList : List PyValue → List String
  | [] => []
  | v :: vs => pyRepr v :: pyReprList vs

/-- Python `str()` conversion, applied by the f-string in `execute`:
the identity on strings, `repr`-like rendering otherwise. -/
def pyStr : PyValue → String
  | .str s => s
  | .int n => pyRepr (.int n)
  | .bool b => pyRepr (.bool b)
  | .none => pyRepr .none
  | .list xs => pyRepr (.list xs)

/-- The parameter mapping: string keys to Python values.  A Python dict
has unique keys; we model it as an association list with first-match
lookup, which agrees with dict lookup on every dict. -/
def PyDict := List (String × PyValue)

/-- Lookup of a key in the mapping, `Option`-valued (Python `k in d`
plus `d[k]`). -/
def dictLookup : PyDict → String → Option PyValue
  | [], _ => Option.none
  | (k, v) :: rest, key => if k = key then some v else dictLookup rest key

/-- Python `d.get(key, default)`: the stored value when the key is
present, the default otherwise.  Never raises. -/
def dictGet (d : PyDict) (key : String) (dflt : PyValue) : PyValue :=
  (dictLookup d key).getD dflt

/-- The body of `SampleTool.execute`:
`input_text = params.get("input", "")` followed by
`return f"Processed: {input_text or 'No input provided'}"`. -/
def execute (params : PyDict) : String :=
  let input_text := dictGet params "input" (PyValue.str "")
  "Processed: " ++ (if truthy input_text then pyStr input_text else "No input provided")

/-- The instance attributes of `SampleTool` (class attributes `name` and
`description`); in the unsubstituted template they hold the literal
placeholder tokens. -/
structure SampleToolState where
  name : String
  description : String
deriving DecidableEq

/-- A freshly constructed `SampleTool()` as it appears in the template:
the class attributes are the raw placeholder strings. -/
def sampleToolInit : SampleToolState :=
  ⟨"\x7b\x7btoolName\x7d\x7d", "\x7b\x7btoolDescription\x7d\x7d"⟩

/-- `SampleTool.execute` with the receiver made explicit: the method
reads `params` and returns a string; it assigns to no attribute of
`self` and mutates no entry of `params`, so both come back unchanged. -/
def executeS (self : SampleToolState) (params : PyDict) : String × SampleToolState × PyDict :=
  (execute params, self, params)

/-- Externally visible events of `main`, in program order. -/
inductive Event where
  | constructServer (name version : String)
  | registerTool (tool : SampleToolState)
  | printLine (line : String)
  | startServer
deriving DecidableEq

/-- Whether an event is a tool registration. -/
def isRegisterEvent : Event → Bool
  | .registerTool _ => true
  | _ => false

/-- Whether an event is a line written to standard output. -/
def isPrintEvent : Event → Bool
  | .printLine _ => true
  | _ => false

/-- The trace of `main` in the unsubstituted template:
`McpServer(name="{{name}}", version="1.0.0")`, then
`server.register_tool(SampleTool())`, then
`print("Starting {{name}} MCP server...")`, then the blocking
`server.start()` as the final event. -/
def mainTrace : List Event :=
  [ Event.constructServer "\x7b\x7bname\x7d\x7d" "1.0.0"
  , Event.registerTool sampleToolInit
  , Event.printLine "Starting \x7b\x7bname\x7d\x7d MCP server..."
  , Event.startServer ]

/-- C1: for every parameter mapping, when the key `"input"` is missing or
its value is falsy, `execute` returns the fallback
`"Processed: No input provided"`; otherwise it uses the stored value,
returning `"Processed: "` followed by its string conversion (the value
itself, verbatim, when it is a string). -/
theorem execute_fallback_or_value (params : PyDict) :
    (dictLookup params "input" = Option.none →
      execute params = "Processed: No input provided")
    ∧ (∀ v, dictLookup params "input" = some v → truthy v = false →
      execute params = "Processed: No input provided")
    ∧ (∀ v, dictLookup params "input" = some v → truthy v = true →
      execute params = "Processed: " ++ pyStr v) := by
  refine ⟨fun h => ?_, fun v h hv => ?_, fun v h hv => ?_⟩
  · simp [execute, dictGet, h, truthy]
  · simp [execute, dictGet, h, hv]
  · simp [execute, dictGet, h, hv]

/-- C1 witness: the empty mapping falls back to the default text. -/
theorem execute_fallback_or_value_checked :
    execute [] = "Processed: No input provided" :=
  (execute_fallback_or_value []).1 rfl

/-- C2: for every mapping binding `"input"` to a non-empty string `s`,
`execute` returns `"Processed: " ++ s`. -/
theorem execute_nonempty_string (params : PyDict) (s : String)
    (h : dictLookup params "input" = some (PyValue.str s)) (hs : s ≠ "") :
    execute params = "Processed: " ++ s := by
  simp [execute, dictGet, h, truthy, pyStr, hs]

/-- C2 witness: the concrete mapping with `"input": "hello"`. -/
theorem execute_nonempty_string_checked :
    execute [("input", PyValue.str "hello")] = "Processed: hello" :=
  execute_nonempty_string [("input", PyValue.str "hello")] "hello" rfl (by decide)

/-- C3: `execute` always succeeds: on every mapping it returns a string
of the form `"Processed: " ++ t`, where `t` is either the defensive
fallback text or the string conversion of the stored truthy value; no
other outcome (in particular no error) exists. -/
theorem execute_always_succeeds (params : PyDict) :
    ∃ t : String, execute params = "Processed: " ++ t
      ∧ (t = "No input provided"
        ∨ ∃ v, dictLookup params "input" = some v ∧ truthy v = true ∧ t = pyStr v) := by
  rcases hl : dictLookup params "input" with _ | v
  · exact ⟨"No input provided", by simp [execute, dictGet, hl, truthy], Or.inl rfl⟩
  · cases hv : truthy v
    · exact ⟨"No input provided", by simp [execute, dictGet, hl, hv], Or.inl rfl⟩
    · exact ⟨pyStr v, by simp [execute, dictGet, hl, hv], Or.inr ⟨v, rfl, hv, rfl⟩⟩

/-- C4: `main` constructs the server with the templated name and the
fixed version `"1.0.0"`, registers exactly one tool instance, writes
exactly one line to standard output (the startup line), and only then
invokes the blocking `start()`, which is the final event of the trace. -/
theorem main_trace_order :
    mainTrace = [ Event.constructServer "\x7b\x7bname\x7d\x7d" "1.0.0"
      , Event.registerTool sampleToolInit
      , Event.printLine "Starting \x7b\x7bname\x7d\x7d MCP server..."
      , Event.startServer ]
    ∧ mainTrace.countP isRegisterEvent = 1
    ∧ mainTrace.countP isPrintEvent = 1
    ∧ mainTrace.getLast? = some Event.startServer :=
  ⟨rfl, rfl, rfl, rfl⟩

/-- C5: on every parameter mapping the result of `execute` is a
non-empty string: it carries at least the leading `"Processed: "`. -/
theorem execute_result_nonempty (params : PyDict) :
    0 < (execute params).length := by
  have h : execute params
      = "Processed: "
        ++ (if truthy (dictGet params "input" (PyValue.str ""))
            then pyStr (dictGet params "input" (PyValue.str ""))
            else "No input provided") := rfl
  have hlen : "Processed: ".length = 11 := rfl
  rw [h, String.length_append, hlen]
  omega

/-- C6: `execute` reads only the `"input"` key: two mappings that agree
on the presence and value of `"input"` produce the same result, however
they differ elsewhere. -/
theorem execute_reads_only_input (p q : PyDict)
    (h : dictLookup p "input" = dictLookup q "input") :
    execute p = execute q := by
  simp [execute, dictGet, h]

/-- C6 witness: adding an unrelated key leaves the result unchanged. -/
theorem execute_reads_only_input_checked :
    execute [("input", PyValue.str "a"), ("other", PyValue.int 7)]
      = execute [("input", PyValue.str "a")] :=
  execute_reads_only_input _ _ rfl

/-- C7: calling `execute` twice with the same mapping yields the same
result, and the first call leaves the tool state untouched (no internal
state mutation between the calls). -/
theorem execute_idempotent (st : SampleToolState) (params : PyDict) :
    (executeS ((executeS st params).2.1) params).1 = (executeS st params).1
    ∧ (executeS st params).2.1 = st :=
  ⟨rfl, rfl⟩

/-- C8: `execute` has no side effects: it returns both the tool state
(its `name` and `description` attributes) and the parameter mapping
unchanged. -/
theorem execute_no_side_effects (st : SampleToolState) (params : PyDict) :
    (executeS st params).2.1 = st ∧ (executeS st params).2.2 = params :=
  ⟨rfl, rfl⟩

/-- C9: in the unsubstituted template, `SampleTool.name` and
`SampleTool.description` are the literal placeholder strings
`{{toolName}}` and `{{toolDescription}}`, and the server name and the
startup line still carry the literal `{{name}}` placeholder: no
placeholder has been substituted and none has a default. -/
theorem template_placeholders_literal :
    sampleToolInit.name = "\x7b\x7btoolName\x7d\x7d"
    ∧ sampleToolInit.description = "\x7b\x7btoolDescription\x7d\x7d"
    ∧ mainTrace.head? = some (Event.constructServer "\x7b\x7bname\x7d\x7d" "1.0.0")
    ∧ (Event.printLine "Starting \x7b\x7bname\x7d\x7d MCP server...") ∈ mainTrace :=
  ⟨rfl, rfl, rfl, by decide⟩

/-- C10: for every mapping whose `"input"` value is truthy but not a
string, `execute` does not fail and returns `"Processed: "` followed by
the Python string conversion of that value. -/
theorem execute_truthy_any_value (params : PyDict) (v : PyValue)
    (h : dictLookup params "input" = some v) (hv : truthy v = true) :
    execute params = "Processed: " ++ pyStr v := by
  simp [execute, dictGet, h, hv]

/-- C10 witness: the integer `5` yields `"Processed: 5"` and the list
`[1, 2]` yields `"Processed: [1, 2]"`. -/
theorem execute_truthy_any_value_checked :
    execute [("input", PyValue.int 5)] = "Processed: 5"
    ∧ execute [("input", PyValue.list [PyValue.int 1, PyValue.int 2])]
      = "Processed: [1, 2]" := by
  constructor
  · rw [execute_truthy_any_value [("input", PyValue.int 5)] (PyValue.int 5) rfl rfl]
    rfl
  · rw [execute_truthy_any_value [("input", PyValue.list [PyValue.int 1, PyValue.int 2])]
      (PyValue.list [PyValue.int 1, PyValue.int 2]) rfl rfl]
    rfl
